import Mathlib

/-!
Verification of the SRX fly-scan orchestration logic
(`startup/62-flyscans.py`, function `scan_and_fly_base` and its per-row
helper `fly_each_step`).

The Python plan is embedded shallowly:

* all floating-point quantities are modelled exactly over `ℚ` (every literal
  in the source is an exact decimal);
* Python's `/` raises `ZeroDivisionError` on a zero denominator, which is
  modelled by `pdiv : ℚ → ℚ → Except PyErr ℚ`;
* the sequence of hardware commands the plan issues is modelled as a trace,
  a `List Event`, built in exactly the order the source issues the
  commands; bluesky's documented cleanup guarantees (`finalize_wrapper`
  runs its cleanup plan on success and failure, `run_decorator` emits a
  stop document on success and failure, which fires the subscribed
  `finalize_scan` callback) are part of the trace semantics;
* hardware failures and cancellations are modelled by a `Fault` parameter
  naming the point at which a wait fails: `preRun` for the initial
  move-to-start (line 181, before the bluesky run opens) and `inRow k` for
  the combined motion-plus-detector completion wait of row `k` (line 307).

Numeric literals from the source are written as exact fractions:
`0.0066392 = 66392/10000000`, `0.007 = 7/1000`, `0.0016392 = 16392/10000000`,
`0.002 = 2/1000`, `2e-4 = 2/10000`, `0.0005 = 5/10000`, `0.1 = 1/10`,
`1.5 = 3/2`, `0.25 = 1/4`, `0.5 = 1/2`, `0.05 = 5/100`, `0.02 = 2/100`.
-/

namespace FlyScan

/-- Python runtime error raised by the arithmetic in the plan. -/
inductive PyErr where
  | zeroDivision
deriving DecidableEq

/-- Python float division: raises `ZeroDivisionError` when the denominator
is zero, otherwise returns the exact quotient. -/
def pdiv (a b : ℚ) : Except PyErr ℚ :=
  if b = 0 then Except.error PyErr.zeroDivision else Except.ok (a / b)

/-- Arguments of `scan_and_fly_base(detectors, xstart, xstop, xnum, ystart,
ystop, ynum, dwell, *, delta=None, shutter=True, align=False, ...)`.
`xnum`/`ynum` are Python ints (they may be negative), the rest are floats. -/
structure ScanRequest where
  xstart : ℚ
  xstop : ℚ
  xnum : ℤ
  ystart : ℚ
  ystop : ℚ
  ynum : ℤ
  dwell : ℚ
  delta : Option ℚ
  shutter : Bool
  align : Bool

/-- One motion axis as the plan sees it: its ophyd `name`, its engineering
unit string `egu` (line 227 branches on `egu == 'mm'`), and the
`velocity.high_limit` read at line 329. -/
structure Motor where
  name : String
  egu : String
  velocityHighLimit : ℚ

/-- Character-list version of prefix testing, used to model Python's
substring operator. -/
def chStarts : List Char → List Char → Bool
  | [], _ => true
  | _ :: _, [] => false
  | a :: as, b :: bs => (a == b) && chStarts as bs

/-- Character-list version of substring testing. -/
def chHas (needle : List Char) : List Char → Bool
  | [] => needle.isEmpty
  | b :: bs => chStarts needle (b :: bs) || chHas needle bs

/-- Python's `needle in hay` on strings (substring containment), used by the
source on motor names: `'e_tomo' in xmotor.name`, `'nano_stage' in
xmotor.name`, `'hf_stage' in xmotor.name`. -/
def strContains (hay needle : String) : Bool :=
  chHas needle.toList hay.toList

/-- Effective dwell after the Merlin minimum-dwell clamp (lines 146-155):
when a detector named `merlin` is present and `dwell < 0.0066392`, the local
variable `dwell` is reassigned to `0.007`; every later use of `dwell` in the
plan (adapter configuration, velocity, delta) sees the clamped value. -/
def effectiveDwell (dets : List String) (dwell : ℚ) : ℚ :=
  if "merlin" ∈ dets ∧ dwell < 66392/10000000 then 7/1000 else dwell

/-- Stage-speed computation `v = ((xstop - xstart) / (xnum-1)) / dwell`
(lines 175 and 244; both divisions can raise `ZeroDivisionError`). -/
def computeVelocity (xstart xstop : ℚ) (xnum : ℤ) (dwell : ℚ) : Except PyErr ℚ :=
  match pdiv (xstop - xstart) ((xnum : ℚ) - 1) with
  | Except.error e => Except.error e
  | Except.ok s => pdiv s dwell

/-- Row velocity as used at line 244: the stage-speed formula applied to the
dwell in effect after the Merlin clamp. -/
def rowVelocity (dets : List String) (r : ScanRequest) : Except PyErr ℚ :=
  computeVelocity r.xstart r.xstop r.xnum (effectiveDwell dets r.dwell)

/-- Pre-roll distance (lines 172-178): when `delta` is not supplied, compute
`delta = np.amax((t_acc * v, MIN_DELTA))` with `t_acc = 1.0` and
`MIN_DELTA = 0.002`; `np.amax` of a pair is `max`. -/
def computeDelta (dets : List String) (r : ScanRequest) : Except PyErr ℚ :=
  match r.delta with
  | some d => Except.ok d
  | none =>
    match rowVelocity dets r with
    | Except.error e => Except.error e
    | Except.ok v => Except.ok (max (1 * v) (2/1000))

/-- Exact semantics of `np.linspace(a, b, n)`: `n` evenly spaced samples
from `a` to `b` inclusive; `[a]` for `n = 1`, `[]` for `n = 0` (line 396). -/
def linspace (a b : ℚ) (n : ℕ) : List ℚ :=
  if n = 0 then []
  else if n = 1 then [a]
  else (List.range n).map (fun i : ℕ => a + (i : ℚ) * ((b - a) / ((n : ℚ) - 1)))

/-- Position-convergence deadband chosen at lines 227-230:
`0.0005` for a motor whose engineering unit is `mm`, `0.1` otherwise. -/
def deadbandFor (egu : String) : ℚ :=
  if egu = "mm" then 5/10000 else 1/10

/-- Fuel-indexed model of the convergence polling loop at lines 231-238:
`dial n` is the `user_readback` value observed before iteration `n`; the
loop exits with `some i` as soon as `|x_set - dial i| ≤ deadband` and
otherwise re-commands the move and polls again.  The source `while` loop
has no iteration bound, so termination only ever comes from the readback
entering the deadband; `fuel` exists solely to make the model total, and
`none` means the loop was still running after `fuel` iterations. -/
def pollLoop (xset db : ℚ) (dial : ℕ → ℚ) : ℕ → ℕ → Option ℕ
  | 0, _ => none
  | fuel + 1, i =>
    if |xset - dial i| ≤ db then some i
    else pollLoop xset db dial fuel (i + 1)

/-- Hardware commands issued by the plan, in source order.  Each constructor
names the device field written and carries the value written. -/
inductive Event where
  | putRetryDeadbandX (v : ℚ)
  | putRetryDeadbandY (v : ℚ)
  | stageSig (det sig : String) (v : ℚ)
  | moveXY (xpos ypos : ℚ)
  | peakup
  | setErase (det : String)
  | openShutter
  | startTelemetry
  | setTotalPoints (det : String) (n : ℤ)
  | setExternalTrig (b : Bool)
  | timeRemaining (row : ℕ)
  | flyNext (det : String)
  | absSetXRow (pos : ℚ)
  | stepMoveY (pos : ℚ)
  | waitRow
  | mvX (pos : ℚ)
  | sleepEv (t : ℚ)
  | setVelocity (v : ℚ)
  | putBacklashSpeedX (v : ℚ)
  | putBacklashSpeedY (v : ℚ)
  | setNumCapture (det : String) (n : ℤ)
  | setNumImages (det : String) (n : ℤ)
  | setNuseAll (n : ℤ)
  | zebraKickoff (xstart xstop : ℚ) (xnum : ℤ) (dwell : ℚ)
  | eraseStart
  | triggerDet (det : String)
  | stopAll
  | zebraComplete
  | zebraCollect
  | setCountMode (n : ℤ)
  | stopTelemetry
  | closeShutter
  | resetStageDefaults
deriving DecidableEq

/-- Velocity reset after the drain phase of a row (lines 327-335).  The
source is an `if` followed by an `if/else` (not `elif`): an `e_tomo` axis
first gets `min(4, high_limit)` and then, because its name does not contain
`nano_stage`, falls into the `else` branch and is additionally set to 1.0. -/
def resetVelocityEvents (m : Motor) : List Event :=
  (if strContains m.name "e_tomo" then
    [Event.setVelocity (min 4 m.velocityHighLimit)] else [])
  ++ (if strContains m.name "nano_stage" then [Event.setVelocity 30]
      else [Event.setVelocity 1])

/-- Value a velocity slot holds after a list of commands is executed: the
value of the last `setVelocity` in the list, if any. -/
def finalVelocity : List Event → Option ℚ
  | [] => none
  | e :: rest =>
    match finalVelocity rest with
    | some v => some v
    | none =>
      match e with
      | Event.setVelocity v => some v
      | _ => none

/-- Helper: the effective dwell is positive whenever the requested dwell
is (the clamp replaces it by `0.007 > 0`). -/
theorem effectiveDwell_pos (dets : List String) {dwell : ℚ} (h : 0 < dwell) :
    0 < effectiveDwell dets dwell := by
  unfold effectiveDwell
  split
  · norm_num
  · exact h

/-- Helper: closed form of the row velocity for `xnum ≥ 2` and positive
dwell — both divisions succeed and the result is the textbook formula over
the effective dwell. -/
theorem rowVelocity_formula (dets : List String) (r : ScanRequest)
    (h2 : 2 ≤ r.xnum) (hd : 0 < r.dwell) :
    rowVelocity dets r =
      Except.ok ((r.xstop - r.xstart) / ((r.xnum : ℚ) - 1) /
        effectiveDwell dets r.dwell) := by
  have hq : (2 : ℚ) ≤ (r.xnum : ℚ) := by exact_mod_cast h2
  have hx : ((r.xnum : ℚ) - 1) ≠ 0 := by linarith
  have hdw : effectiveDwell dets r.dwell ≠ 0 :=
    ne_of_gt (effectiveDwell_pos dets hd)
  simp [rowVelocity, computeVelocity, pdiv, hx, hdw]

/-- Concrete request used to refute the original C5 statement: a Merlin is
present and the requested dwell `0.005` is below the Merlin minimum. -/
def reqC5cex : ScanRequest :=
  ⟨0, 7, 8, 0, 0, 1, 5/1000, none, true, false⟩

/-- C5 counterexample: with a Merlin present and requested dwell `0.005`,
the row velocity the code computes is `(7-0)/(8-1)/0.007 = 1000/7`, not the
claimed `(fastStop - fastStart)/(fastNum - 1)/dwell = (7-0)/(8-1)/0.005`:
the clamp at line 155 reassigns the very `dwell` variable line 244 divides
by, so the claimed formula over the requested dwell is false. -/
theorem c5_counterexample :
    rowVelocity ["merlin"] reqC5cex = Except.ok (1000/7) ∧
    (1000/7 : ℚ) ≠ (7 - 0) / ((8 : ℚ) - 1) / (5/1000) := by
  constructor
  · norm_num [rowVelocity, computeVelocity, pdiv, effectiveDwell, reqC5cex]
  · norm_num

/-- C5 amended: for every request with `fastNum ≥ 2` and positive dwell,
the fast-axis row velocity equals
`(fastStop - fastStart) / (fastNum - 1) / dwellEff`, where `dwellEff` is
the dwell in effect after the Merlin clamp (equal to the requested dwell
whenever no Merlin is present or `dwell ≥ 0.0066392`); for
`fastStart=0, fastStop=10, fastNum=11, dwell=0.5` the velocity is exactly
`2.0` (see the witness). -/
theorem c5_amended (dets : List String) (r : ScanRequest)
    (h2 : 2 ≤ r.xnum) (hd : 0 < r.dwell) :
    rowVelocity dets r =
      Except.ok ((r.xstop - r.xstart) / ((r.xnum : ℚ) - 1) /
        effectiveDwell dets r.dwell) :=
  rowVelocity_formula dets r h2 hd

/-- Request of the spec's worked velocity example:
`fastStart=0, fastStop=10, fastNum=11, dwell=0.5`, no detector with a
dwell clamp. -/
def reqC5spec : ScanRequest :=
  ⟨0, 10, 11, 0, 0, 1, 1/2, none, true, false⟩

/-- Witness for the amended C5 at the spec's own example: the computed row
velocity is exactly 2. -/
theorem c5_witness : rowVelocity [] reqC5spec = Except.ok 2 := by
  have h := c5_amended [] reqC5spec (by norm_num [reqC5spec]) (by norm_num [reqC5spec])
  rw [h]
  norm_num [reqC5spec, effectiveDwell]

/-- C6: when `delta` is not supplied, the computed pre-roll distance is
`max(0.002, 1.0 × velocity)` where `velocity` is exactly the computed row
velocity (the same expression lines 175 and 244 evaluate). -/
theorem c6_delta (dets : List String) (r : ScanRequest)
    (hnone : r.delta = none) (h2 : 2 ≤ r.xnum) (hd : 0 < r.dwell) :
    rowVelocity dets r =
      Except.ok ((r.xstop - r.xstart) / ((r.xnum : ℚ) - 1) /
        effectiveDwell dets r.dwell) ∧
    computeDelta dets r =
      Except.ok (max (1 * ((r.xstop - r.xstart) / ((r.xnum : ℚ) - 1) /
        effectiveDwell dets r.dwell)) (2/1000)) := by
  have hv := rowVelocity_formula dets r h2 hd
  refine ⟨hv, ?_⟩
  unfold computeDelta
  rw [hnone, hv]

/-- Request for the first C6 instance (`velocity = 2`, so `delta = 2`). -/
def reqC6a : ScanRequest :=
  ⟨0, 10, 11, 0, 0, 1, 1/2, none, true, false⟩

/-- Request for the second C6 instance
(`fastStart=0, fastStop=0.001, fastNum=2, dwell=10`, near-zero velocity,
so `delta` falls back to the minimum `0.002`). -/
def reqC6b : ScanRequest :=
  ⟨0, 1/1000, 2, 0, 0, 1, 10, none, true, false⟩

/-- Witness for C6 at both instances named by the claim:
`delta = 2` for `velocity = 2`, and `delta = 0.002` for
`fastStart=0, fastStop=0.001, fastNum=2, dwell=10`. -/
theorem c6_witness :
    computeDelta [] reqC6a = Except.ok 2 ∧
    computeDelta [] reqC6b = Except.ok (2/1000) := by
  constructor
  · have h := (c6_delta [] reqC6a rfl (by norm_num [reqC6a]) (by norm_num [reqC6a])).2
    rw [h]
    norm_num [reqC6a, effectiveDwell, max_def]
  · have h := (c6_delta [] reqC6b rfl (by norm_num [reqC6b]) (by norm_num [reqC6b])).2
    rw [h]
    norm_num [reqC6b, effectiveDwell, max_def]

/-- C7 counterexample: `np.linspace(0, 4, 1)` is `[0]` — the single visited
position is `slowStart`, and `slowStop = 4` is never visited, so the slow
axis loop does not visit positions "between slowStart and slowStop
inclusive" for `slowNum = 1` with distinct endpoints. -/
theorem c7_counterexample :
    (linspace 0 4 1).length = 1 ∧ linspace 0 4 1 = [0] ∧
    (4 : ℚ) ∉ linspace 0 4 1 := by
  refine ⟨?_, ?_, ?_⟩ <;> norm_num [linspace]

/-- C7 amended: the slow-axis loop visits exactly `slowNum` positions in
order; for `slowNum ≥ 2` they are evenly spaced with first position
`slowStart` and last position `slowStop`; for `slowNum = 1` the single
visited position is `slowStart` (so `slowStop` is visited only when it
equals `slowStart`). -/
theorem c7_amended (a b : ℚ) (n : ℕ) (hn : 2 ≤ n) :
    (linspace a b n).length = n ∧
    (∀ i, i < n →
      (linspace a b n)[i]? = some (a + (i : ℚ) * ((b - a) / ((n : ℚ) - 1)))) ∧
    (linspace a b n)[0]? = some a ∧
    (linspace a b n)[n - 1]? = some b ∧
    linspace a b 1 = [a] := by
  have h0 : ¬ n = 0 := by omega
  have h1 : ¬ n = 1 := by omega
  have hq : (2 : ℚ) ≤ (n : ℚ) := by exact_mod_cast hn
  have hx : ((n : ℚ) - 1) ≠ 0 := by linarith
  have hform : ∀ i, i < n →
      (linspace a b n)[i]? = some (a + (i : ℚ) * ((b - a) / ((n : ℚ) - 1))) := by
    intro i hi
    unfold linspace
    rw [if_neg h0, if_neg h1]
    rw [List.getElem?_map, List.getElem?_range hi]
    rfl
  refine ⟨?_, hform, ?_, ?_, by norm_num [linspace]⟩
  · unfold linspace
    rw [if_neg h0, if_neg h1, List.length_map, List.length_range]
  · rw [hform 0 (by omega)]
    norm_num
  · rw [hform (n - 1) (by omega)]
    have hc : ((n - 1 : ℕ) : ℚ) = (n : ℚ) - 1 := by
      push_cast [Nat.cast_sub (by omega : 1 ≤ n)]
      ring
    rw [hc]
    congr 1
    field_simp

/-- Witness for the amended C7 at the spec's example
`slowStart=0, slowStop=4, slowNum=5`: five positions, last one `4`, and the
full list is `[0, 1, 2, 3, 4]`. -/
theorem c7_witness :
    (linspace 0 4 5).length = 5 ∧ (linspace 0 4 5)[4]? = some 4 ∧
    linspace 0 4 5 = [0, 1, 2, 3, 4] := by
  have h := c7_amended 0 4 5 (by norm_num)
  refine ⟨h.1, ?_, ?_⟩
  · have h4 := h.2.2.2.1
    simpa using h4
  · norm_num [linspace, List.range_succ]

/-- Fast-axis motor whose name matches the `e_tomo` special case. -/
def motorEtomo : Motor := ⟨"e_tomo_x", "mm", 10⟩

/-- Fast-axis motor whose name matches the `nano_stage` special case. -/
def motorNano : Motor := ⟨"nano_stage_sx", "um", 100⟩

/-- Fast-axis motor matching neither special case. -/
def motorHf : Motor := ⟨"hf_stage_x", "mm", 10⟩

/-- C8: evaluation of the end-of-row velocity reset policy (lines 327-335).
Because line 331 is `if` rather than `elif`, an `e_tomo` axis is first set
to the capped return velocity `min(4, high_limit) = 4` and then immediately
overwritten with the default `1.0`, so the axis ends at `1.0`, not at the
capped value the policy table (and the claim) prescribe; `nano_stage` axes
end at 30 and all other axes at `1.0` as claimed. -/
theorem c8_velocity_reset_policy :
    resetVelocityEvents motorEtomo =
      [Event.setVelocity (min 4 10), Event.setVelocity 1] ∧
    min (4 : ℚ) 10 = 4 ∧
    finalVelocity (resetVelocityEvents motorEtomo) = some 1 ∧
    resetVelocityEvents motorNano = [Event.setVelocity 30] ∧
    resetVelocityEvents motorHf = [Event.setVelocity 1] ∧
    (1 : ℚ) ≠ 4 := by
  have he : strContains "e_tomo_x" "e_tomo" = true := by decide
  have he2 : strContains "e_tomo_x" "nano_stage" = false := by decide
  have hn : strContains "nano_stage_sx" "e_tomo" = false := by decide
  have hn2 : strContains "nano_stage_sx" "nano_stage" = true := by decide
  have hh : strContains "hf_stage_x" "e_tomo" = false := by decide
  have hh2 : strContains "hf_stage_x" "nano_stage" = false := by decide
  refine ⟨?_, by norm_num, ?_, ?_, ?_, by norm_num⟩ <;>
    simp [resetVelocityEvents, motorEtomo, motorNano, motorHf,
      he, he2, hn, hn2, hh, hh2, finalVelocity]

/-- C9: the convergence polling loop before the fly (lines 231-238) has no
iteration cap: whenever every readback stays outside the deadband the loop
never exits (for any amount of fuel), it exits only at an index whose
readback is within the deadband of the target, and the deadband is `0.0005`
for a millimetre-unit axis and `0.1` for any other unit. -/
theorem c9_unbounded_poll (xset db : ℚ) (dial : ℕ → ℚ)
    (hdiv : ∀ n, db < |xset - dial n|) :
    (∀ fuel i, pollLoop xset db dial fuel i = none) ∧
    (∀ (d2 : ℕ → ℚ) (fuel i j : ℕ),
      pollLoop xset db d2 fuel i = some j → |xset - d2 j| ≤ db) ∧
    deadbandFor "mm" = 5/10000 ∧
    (∀ egu, egu ≠ "mm" → deadbandFor egu = 1/10) := by
  refine ⟨?_, ?_, by norm_num [deadbandFor], ?_⟩
  · intro fuel
    induction fuel with
    | zero => intro i; rfl
    | succ f ih =>
      intro i
      unfold pollLoop
      rw [if_neg (not_le.mpr (hdiv i))]
      exact ih (i + 1)
  · intro d2 fuel
    induction fuel with
    | zero => intro i j h; cases h
    | succ f ih =>
      intro i j h
      unfold pollLoop at h
      by_cases hc : |xset - d2 i| ≤ db
      · rw [if_pos hc] at h
        cases h
        exact hc
      · rw [if_neg hc] at h
        exact ih _ _ h
  · intro egu h
    unfold deadbandFor
    rw [if_neg h]

/-- Witness for C9: with the millimetre deadband, a target of 0 and a
readback stuck at 1, the loop is still running after three iterations. -/
theorem c9_witness : pollLoop 0 (deadbandFor "mm") (fun _ => 1) 3 0 = none :=
  (c9_unbounded_poll 0 (deadbandFor "mm") (fun _ => 1)
    (fun _ => by norm_num [deadbandFor])).1 3 0

/-- Hardware/configuration environment of one `scan_and_fly_base` call:
the two motors, identity tests against the shared `hf_stage` axes (`xIsHfX`
is Python's `hf_stage.x is xmotor`, etc.), the names of the trigger
buffer's encoder and scaler sub-devices and of `flying_zebra.detectors`
(together these are the keys of `dets_by_name`), the deadband values held
by `hf_stage` before the scan, and `polls row` — the number of iterations
the convergence loop of a given row performs before the readback enters
the deadband. -/
structure Env where
  xmotor : Motor
  ymotor : Motor
  xIsHfX : Bool
  xIsHfY : Bool
  yIsHfX : Bool
  yIsHfY : Bool
  encName : String
  sclrName : String
  zebraDets : List String
  oldRdbdX : ℚ
  oldRdbdY : ℚ
  polls : ℕ → ℕ

/-- Keys of `dets_by_name` (line 142): the encoder, the scaler and the
detector list assigned to the flyer. -/
def detNames (env : Env) : List String :=
  env.encName :: env.sclrName :: env.zebraDets

/-- Injected hardware failure: `noFault` for a run in which every wait
completes, `preRun` for a failure of the initial move at line 181 (before
the bluesky run is opened), `inRow k` for a failure of the combined
motion-plus-detector wait at line 307 during row `k`. -/
inductive Fault where
  | noFault
  | preRun
  | inRow (k : ℕ)
deriving DecidableEq

/-- Result of a `scan_and_fly_base` call. -/
inductive Outcome where
  | ok
  | configError
  | zeroDiv
  | indexError
  | faulted
deriving DecidableEq

/-- Retry-deadband overrides installed at lines 127-135: `2e-4` is written
to `hf_stage.RETRY_DEADBAND_X`/`_Y` when the corresponding `hf_stage` axis
is one of the two scan motors. -/
def installEvents (env : Env) : List Event :=
  (if env.xIsHfX || env.yIsHfX then [Event.putRetryDeadbandX (2/10000)] else [])
  ++ (if env.xIsHfY || env.yIsHfY then [Event.putRetryDeadbandY (2/10000)] else [])

/-- Merlin staging configuration (lines 146-163), written with the
effective (possibly clamped) dwell. -/
def merlinSetupEvents (dets : List String) (deff : ℚ) (xnum : ℤ) : List Event :=
  if "merlin" ∈ dets then
    [Event.stageSig "merlin" "acquire_time" (1/4 * deff - 16392/10000000),
     Event.stageSig "merlin" "acquire_period" (1/2 * deff),
     Event.stageSig "merlin" "num_images" 1,
     Event.stageSig "merlin" "total_points" (xnum : ℚ),
     Event.stageSig "merlin" "num_capture" (xnum : ℚ)]
  else []

/-- Dexela staging configuration (lines 166-169). -/
def dexelaSetupEvents (dets : List String) (deff : ℚ) : List Event :=
  if "dexela" ∈ dets then
    [Event.stageSig "dexela" "acquire_time" (1/2 * deff - 5/100),
     Event.stageSig "dexela" "acquire_period" (1/2 * deff - 2/100)]
  else []

/-- Per-detector frame/capture-count configuration of a row
(lines 255-280): `num_capture` and `num_images` are set to `xnum` for each
of `xs`, `xs2`, `merlin` and `dexela` that is present, then the scaler's
`nuse_all` is set to `xnum`. -/
def detConfigEvents (dets : List String) (xnum : ℤ) : List Event :=
  (if "xs" ∈ dets then
    [Event.setNumCapture "xs" xnum, Event.setNumImages "xs" xnum] else [])
  ++ (if "xs2" ∈ dets then
    [Event.setNumCapture "xs2" xnum, Event.setNumImages "xs2" xnum] else [])
  ++ (if "merlin" ∈ dets then
    [Event.setNumCapture "merlin" xnum, Event.setNumImages "merlin" xnum] else [])
  ++ (if "dexela" ∈ dets then
    [Event.setNumCapture "dexela" xnum, Event.setNumImages "dexela" xnum] else [])
  ++ [Event.setNuseAll xnum]

/-- Events of `n` iterations of the convergence retry loop (lines 231-238):
each iteration re-commands the move to the pre-roll target and sleeps
0.1 s. -/
def pollEvents (x : ℚ) : ℕ → List Event
  | 0 => []
  | n + 1 => Event.mvX x :: Event.sleepEv (1/10) :: pollEvents x n

/-- Detector triggering for a row (lines 298-301): every flyer detector is
triggered into the row group, with a 1 s settle sleep after the dexela. -/
def triggerEvents : List String → List Event
  | [] => []
  | d :: ds =>
    Event.triggerDet d ::
      ((if d = "dexela" then [Event.sleepEv 1] else []) ++ triggerEvents ds)

/-- Pre-roll phase of a row (`move_to_start_fly` plus the convergence loop,
lines 210-240): command the fast axis to `xstart - delta` in the row group,
step the slow axis, wait on the group, then poll until converged. -/
def rowPreEvents (env : Env) (xt ypos : ℚ) (k : ℕ) : List Event :=
  [Event.absSetXRow xt, Event.stepMoveY ypos, Event.waitRow]
  ++ pollEvents xt (env.polls k)

/-- Arm-and-fly phase of a row (lines 244-305): set the row velocity, apply
the backlash-speed overrides for `hf_stage` fast axes, configure the
detectors, kick off the zebra (configuration parameters are passed with the
kickoff call), arm the scaler, trigger the detectors, sleep 1.5 s and
command the fly move to `xstop + delta`. -/
def rowArmEvents (env : Env) (r : ScanRequest) (deff δ v : ℚ) : List Event :=
  [Event.setVelocity v]
  ++ (if env.xIsHfX then [Event.putBacklashSpeedX v] else [])
  ++ (if env.xIsHfY then [Event.putBacklashSpeedY v] else [])
  ++ detConfigEvents (detNames env) r.xnum
  ++ [Event.zebraKickoff r.xstart r.xstop r.xnum deff, Event.eraseStart]
  ++ triggerEvents env.zebraDets
  ++ [Event.sleepEv (3/2), Event.absSetXRow (r.xstop + δ)]

/-- Drain phase of a row (lines 307-335): wait on the row group, stop the
scaler, complete and collect the zebra, then reset the fast-axis
velocity. -/
def rowDrainEvents (env : Env) : List Event :=
  [Event.waitRow, Event.stopAll, Event.zebraComplete, Event.zebraCollect]
  ++ resetVelocityEvents env.xmotor

/-- Full `fly_each_step` trace for one row. -/
def rowEvents (env : Env) (r : ScanRequest) (deff δ v : ℚ)
    (k : ℕ) (ypos : ℚ) : List Event :=
  rowPreEvents env (r.xstart - δ) ypos k
  ++ rowArmEvents env r deff δ v
  ++ rowDrainEvents env

/-- Telemetry/arming prefix the plan emits before each row
(lines 397-402): the time-remaining estimate and `fly_next` for every
flyer detector. -/
def rowHeader (env : Env) (k : ℕ) : List Event :=
  Event.timeRemaining k :: env.zebraDets.map Event.flyNext

/-- Row loop of the plan (lines 396-404) with fault injection: `fk = some
k` makes the completion wait of row `k` fail, truncating that row after the
fly command; the boolean reports whether the fault fired. -/
def rowsGo (env : Env) (r : ScanRequest) (deff δ v : ℚ) (fk : Option ℕ) :
    List (ℕ × ℚ) → List Event × Bool
  | [] => ([], false)
  | (k, y) :: rest =>
    if fk = some k then
      (rowHeader env k ++ rowPreEvents env (r.xstart - δ) y k
        ++ rowArmEvents env r deff δ v, true)
    else
      ((rowHeader env k ++ rowEvents env r deff δ v k y)
        ++ (rowsGo env r deff δ v fk rest).1,
       (rowsGo env r deff δ v fk rest).2)

/-- Events of the subscribed `finalize_scan` stop-document callback
(lines 344-352): telemetry, then restoration of the saved retry-deadband
values for whichever `hf_stage` axes are in use.  bluesky emits the stop
document on success, failure and abort of an open run, so these events
appear on every exit path that reaches the run. -/
def finalizeEvents (env : Env) : List Event :=
  Event.stopTelemetry ::
  ((if env.xIsHfX || env.yIsHfX then [Event.putRetryDeadbandX env.oldRdbdX] else [])
   ++ (if env.xIsHfY || env.yIsHfY then [Event.putRetryDeadbandY env.oldRdbdY] else []))

/-- Plan prefix inside the run (lines 388-394): `at_scan` telemetry fired
by the start document, `total_points` for every flyer detector, and
enabling external triggering. -/
def planPreEvents (env : Env) (xnum : ℤ) : List Event :=
  Event.startTelemetry ::
  (env.zebraDets.map (fun d => Event.setTotalPoints d xnum)
   ++ [Event.setExternalTrig true])

/-- Plan suffix after the last row (lines 408-410). -/
def planPostEvents : List Event :=
  [Event.setExternalTrig false, Event.setCountMode 1]

/-- Full trace semantics of one `scan_and_fly_base` call, in source order:
validation (line 119), deadband overrides (127-135), merlin/dexela staging
(146-169), delta computation (172-178, may raise `ZeroDivisionError`), the
move to the start position (181, the `preRun` fault point), optional
alignment (185-186), `dets_by_name[flying_zebra.detectors[0].name]`
(358, `IndexError` when the detector list is empty), erase (360), shutter
open (421-423), the decorated plan (387-410) whose rows may recompute the
velocity at line 244 (raising `ZeroDivisionError` mid-row when
`xnum = 1` and `delta` was supplied), the stop-document callback, the
`finalize_wrapper` shutter close (414-416), and the success-path
`hf_stage.reset_stage_defaults()` (436-437). -/
def runScan (env : Env) (r : ScanRequest) (fault : Fault) :
    List Event × Outcome :=
  if r.xnum < 1 ∨ r.ynum < 1 then ([], Outcome.configError)
  else
    let dets := detNames env
    let deff := effectiveDwell dets r.dwell
    let setup := installEvents env ++ merlinSetupEvents dets deff r.xnum
      ++ dexelaSetupEvents dets deff
    match computeDelta dets r with
    | Except.error _ => (setup, Outcome.zeroDiv)
    | Except.ok δ =>
      if fault = Fault.preRun then
        (setup ++ [Event.moveXY (r.xstart - δ) r.ystart], Outcome.faulted)
      else
        let pre := setup ++ [Event.moveXY (r.xstart - δ) r.ystart]
          ++ (if r.align then [Event.peakup] else [])
        match env.zebraDets with
        | [] => (pre, Outcome.indexError)
        | xs0 :: _ =>
          let pre2 := pre ++ [Event.setErase xs0]
            ++ (if r.shutter then [Event.openShutter] else [])
          let shutClose := if r.shutter then [Event.closeShutter] else []
          let steps := (linspace r.ystart r.ystop r.ynum.toNat).enum
          match rowVelocity dets r with
          | Except.error _ =>
            let rowfail :=
              match steps with
              | [] => []
              | (k, y) :: _ => rowHeader env k ++ rowPreEvents env (r.xstart - δ) y k
            (pre2 ++ planPreEvents env r.xnum ++ rowfail
              ++ finalizeEvents env ++ shutClose, Outcome.zeroDiv)
          | Except.ok v =>
            let fk := match fault with | Fault.inRow k => some k | _ => none
            let go := rowsGo env r deff δ v fk steps
            (pre2 ++ planPreEvents env r.xnum ++ go.1
              ++ (if go.2 then [] else planPostEvents)
              ++ finalizeEvents env ++ shutClose
              ++ (if go.2 then []
                  else if strContains env.xmotor.name "hf_stage" then
                    [Event.resetStageDefaults] else []),
             if go.2 then Outcome.faulted else Outcome.ok)

/-- C1: an invalid point count (`fastNum < 1` or `slowNum < 1`) makes the
call return immediately (line 119-121), before the deadband overrides, the
detector staging, the motion commands and everything else: the outcome is
the configuration failure and the trace of hardware commands is empty. -/
theorem c1_invalid_counts_fail_fast (env : Env) (r : ScanRequest)
    (fault : Fault) (h : r.xnum < 1 ∨ r.ynum < 1) :
    runScan env r fault = ([], Outcome.configError) := by
  unfold runScan
  rw [if_pos h]

/-- Baseline environment: `hf_stage.x` is the fast axis, `hf_stage.y` the
slow axis, one `xs` detector on the flyer, no polls needed. -/
def envPlain : Env :=
  { xmotor := ⟨"hf_stage_x", "mm", 10⟩
    ymotor := ⟨"hf_stage_y", "mm", 10⟩
    xIsHfX := true
    xIsHfY := false
    yIsHfX := false
    yIsHfY := true
    encName := "zebra"
    sclrName := "sclr1"
    zebraDets := ["xs"]
    oldRdbdX := 1/100
    oldRdbdY := 1/100
    polls := fun _ => 0 }

/-- Request with `fastNum = 0`, rejected by validation. -/
def reqC1 : ScanRequest := ⟨0, 10, 0, 0, 4, 5, 1/2, none, true, false⟩

/-- Witness for C1 at `fastNum = 0`. -/
theorem c1_witness : runScan envPlain reqC1 Fault.noFault = ([], Outcome.configError) :=
  c1_invalid_counts_fail_fast envPlain reqC1 Fault.noFault (Or.inl (by decide))

/-- C10: a request with `fastNum = 1` passes validation (only `xnum < 1` is
rejected) and, when `delta` is not supplied, the delta computation at
line 175 divides `(xstop - xstart)` by `xnum - 1 = 0`: the run dies with
`ZeroDivisionError` rather than being rejected as a configuration error;
there is no guard for `fastNum = 1` on this path. -/
theorem c10_fastnum_one_divides_by_zero (env : Env) (r : ScanRequest)
    (fault : Fault) (h1 : r.xnum = 1) (hy : 1 ≤ r.ynum)
    (hδ : r.delta = none) :
    (runScan env r fault).2 = Outcome.zeroDiv ∧
    (runScan env r fault).2 ≠ Outcome.configError := by
  have hval : ¬(r.xnum < 1 ∨ r.ynum < 1) := by omega
  have hx : ((r.xnum : ℚ) - 1) = 0 := by rw [h1]; norm_num
  have hcd : computeDelta (detNames env) r = Except.error PyErr.zeroDivision := by
    simp [computeDelta, rowVelocity, computeVelocity, pdiv, hδ, hx]
  constructor <;> simp [runScan, hval, hcd]

/-- Request with `fastNum = 1` and no `delta`. -/
def reqC10 : ScanRequest := ⟨0, 10, 1, 0, 4, 5, 1/2, none, true, false⟩

/-- Witness for C10: the concrete `fastNum = 1` request dies with the
division by zero, not with the configuration failure. -/
theorem c10_witness :
    (runScan envPlain reqC10 Fault.noFault).2 = Outcome.zeroDiv ∧
    (runScan envPlain reqC10 Fault.noFault).2 ≠ Outcome.configError :=
  c10_fastnum_one_divides_by_zero envPlain reqC10 Fault.noFault rfl (by decide) rfl

/-- Request of the C2 scenario: Merlin present, requested dwell `0.005`. -/
def reqC2cex : ScanRequest := ⟨0, 10, 11, 0, 0, 1, 5/1000, none, true, false⟩

/-- C2 counterexample: with a Merlin and requested dwell `0.005`, the
effective dwell is clamped to `0.007` as claimed, but the row velocity is
computed from the clamped value — `(10-0)/(11-1)/0.007 = 1000/7` — and not
from the originally requested dwell, which would give
`(10-0)/(11-1)/0.005 = 200`; the clamp does change the velocity. -/
theorem c2_counterexample :
    effectiveDwell ["merlin"] (5/1000) = 7/1000 ∧
    rowVelocity ["merlin"] reqC2cex = Except.ok (1000/7) ∧
    (1000/7 : ℚ) ≠ (10 - 0) / ((11 : ℚ) - 1) / (5/1000) := by
  refine ⟨?_, ?_, ?_⟩
  · norm_num [effectiveDwell]
  · norm_num [rowVelocity, computeVelocity, pdiv, effectiveDwell, reqC2cex]
  · norm_num

/-- C2 amended: when a Merlin is present and the requested dwell is below
`0.0066392`, the dwell is clamped to `0.007` with a warning (not a
failure), the Merlin adapter is configured from the clamped dwell, and the
fast-axis row velocity is also computed from the clamped dwell `0.007`
(the clamp changes the velocity whenever it fires, because line 155
reassigns the very variable line 244 reads). -/
theorem c2_amended (dets : List String) (r : ScanRequest)
    (hm : "merlin" ∈ dets) (hd : r.dwell < 66392/10000000) :
    effectiveDwell dets r.dwell = 7/1000 ∧
    merlinSetupEvents dets (effectiveDwell dets r.dwell) r.xnum =
      [Event.stageSig "merlin" "acquire_time" (1/4 * (7/1000) - 16392/10000000),
       Event.stageSig "merlin" "acquire_period" (1/2 * (7/1000)),
       Event.stageSig "merlin" "num_images" 1,
       Event.stageSig "merlin" "total_points" (r.xnum : ℚ),
       Event.stageSig "merlin" "num_capture" (r.xnum : ℚ)] ∧
    rowVelocity dets r = computeVelocity r.xstart r.xstop r.xnum (7/1000) := by
  have he : effectiveDwell dets r.dwell = 7/1000 := by
    unfold effectiveDwell
    rw [if_pos ⟨hm, hd⟩]
  refine ⟨he, ?_, ?_⟩
  · rw [he]
    unfold merlinSetupEvents
    rw [if_pos hm]
  · unfold rowVelocity
    rw [he]

/-- Witness for the amended C2 at the concrete scenario: the effective
dwell is `0.007` and the row velocity is the formula over `0.007`. -/
theorem c2_witness :
    effectiveDwell ["merlin"] ((5 : ℚ)/1000) = 7/1000 ∧
    rowVelocity ["merlin"] reqC2cex = computeVelocity 0 10 11 (7/1000) := by
  have h := c2_amended ["merlin"] reqC2cex (by simp) (by norm_num [reqC2cex])
  constructor
  · have h1 := h.1
    simpa [reqC2cex] using h1
  · have h3 := h.2.2
    simpa [reqC2cex] using h3

/-- Selector for the events the row-cycle ordering claim is about: the
fast-axis row-group moves, the row-group waits, the detector
frame/capture-count configuration, and the three zebra phases. -/
def keyEvent : Event → Bool
  | Event.absSetXRow _ => true
  | Event.waitRow => true
  | Event.setNumCapture _ _ => true
  | Event.setNumImages _ _ => true
  | Event.setNuseAll _ => true
  | Event.zebraKickoff _ _ _ _ => true
  | Event.zebraComplete => true
  | Event.zebraCollect => true
  | _ => false

/-- Helper: the retry-loop events are not key events. -/
theorem pollEvents_filter_key (x : ℚ) (n : ℕ) :
    (pollEvents x n).filter keyEvent = [] := by
  induction n with
  | zero => rfl
  | succ n ih => simp [pollEvents, ih, keyEvent]

/-- Helper: detector triggering events are not key events. -/
theorem triggerEvents_filter_key (ds : List String) :
    (triggerEvents ds).filter keyEvent = [] := by
  induction ds with
  | nil => rfl
  | cons d ds ih =>
    by_cases hd : d = "dexela" <;> simp [triggerEvents, hd, ih, keyEvent]

/-- Helper: every detector-configuration event is a key event. -/
theorem detConfig_filter_key (dets : List String) (xnum : ℤ) :
    (detConfigEvents dets xnum).filter keyEvent = detConfigEvents dets xnum := by
  unfold detConfigEvents
  split_ifs <;> simp [keyEvent]

/-- Helper: the velocity-reset events are not key events. -/
theorem resetVelocity_filter_key (m : Motor) :
    (resetVelocityEvents m).filter keyEvent = [] := by
  unfold resetVelocityEvents
  split_ifs <;> simp [keyEvent]

/-- C4: projected onto the key events, every row's trace is exactly — in
this order — the pre-roll row-group move and its wait, the detector
frame/capture-count configuration, one zebra kickoff (carrying the row's
configure parameters), the fly move, the combined completion wait, one
zebra complete and one zebra collect.  In particular each row performs
exactly one configure/kickoff/complete/collect cycle, detector arming
precedes the kickoff, the kickoff precedes the fly command, the completion
wait precedes `complete`, and `collect` comes last. -/
theorem c4_row_trigger_buffer_cycle (env : Env) (r : ScanRequest)
    (deff δ v : ℚ) (k : ℕ) (ypos : ℚ) :
    (rowEvents env r deff δ v k ypos).filter keyEvent =
      [Event.absSetXRow (r.xstart - δ), Event.waitRow]
      ++ detConfigEvents (detNames env) r.xnum
      ++ [Event.zebraKickoff r.xstart r.xstop r.xnum deff,
          Event.absSetXRow (r.xstop + δ), Event.waitRow,
          Event.zebraComplete, Event.zebraCollect] := by
  unfold rowEvents rowPreEvents rowArmEvents rowDrainEvents
  split_ifs <;>
    simp [List.filter_append, pollEvents_filter_key, triggerEvents_filter_key,
      detConfig_filter_key, resetVelocity_filter_key, keyEvent]

/-- Selector for writes to the X retry-deadband override slot. -/
def isRdbdX : Event → Bool
  | Event.putRetryDeadbandX _ => true
  | _ => false

/-- Selector for writes to the Y retry-deadband override slot. -/
def isRdbdY : Event → Bool
  | Event.putRetryDeadbandY _ => true
  | _ => false

/-- Selector for writes to either retry-deadband override slot. -/
def isRdbd : Event → Bool
  | Event.putRetryDeadbandX _ => true
  | Event.putRetryDeadbandY _ => true
  | _ => false

/-- Selector for writes to the X backlash-speed override slot. -/
def isBacklashX : Event → Bool
  | Event.putBacklashSpeedX _ => true
  | _ => false

/-- Helper: a predicate below another inherits empty filters. -/
theorem filter_sub_nil (q p : Event → Bool) (l : List Event)
    (hqp : ∀ e, q e = true → p e = true) (hp : l.filter p = []) :
    l.filter q = [] := by
  rw [List.filter_eq_nil_iff] at hp ⊢
  intro a ha hq
  exact hp a ha (hqp a hq)

/-- Helper: `isRdbdX` is below `isRdbd`. -/
theorem isRdbdX_le (e : Event) (h : isRdbdX e = true) : isRdbd e = true := by
  cases e <;> simp_all [isRdbdX, isRdbd]

/-- Helper: `isRdbdY` is below `isRdbd`. -/
theorem isRdbdY_le (e : Event) (h : isRdbdY e = true) : isRdbd e = true := by
  cases e <;> simp_all [isRdbdY, isRdbd]

/-- Helper: filtering a mapped list by a predicate false on the image. -/
theorem filter_map_nil {α : Type} (q : Event → Bool) (f : α → Event)
    (l : List α) (h : ∀ a, q (f a) = false) : (l.map f).filter q = [] := by
  induction l with
  | nil => rfl
  | cons a l ih => simp [h, ih]

/-- Helper: the retry loop writes no deadband override. -/
theorem pollEvents_filter_rdbd (x : ℚ) (n : ℕ) :
    (pollEvents x n).filter isRdbd = [] := by
  induction n with
  | zero => rfl
  | succ n ih => simp [pollEvents, ih, isRdbd]

/-- Helper: detector triggering writes no deadband override. -/
theorem triggerEvents_filter_rdbd (ds : List String) :
    (triggerEvents ds).filter isRdbd = [] := by
  induction ds with
  | nil => rfl
  | cons d ds ih =>
    by_cases hd : d = "dexela" <;> simp [triggerEvents, hd, ih, isRdbd]

/-- Helper: detector configuration writes no deadband override. -/
theorem detConfig_filter_rdbd (dets : List String) (xnum : ℤ) :
    (detConfigEvents dets xnum).filter isRdbd = [] := by
  unfold detConfigEvents
  split_ifs <;> simp [isRdbd]

/-- Helper: the velocity reset writes no deadband override. -/
theorem resetVelocity_filter_rdbd (m : Motor) :
    (resetVelocityEvents m).filter isRdbd = [] := by
  unfold resetVelocityEvents
  split_ifs <;> simp [isRdbd]

/-- Helper: the pre-roll phase writes no deadband override. -/
theorem rowPre_filter_rdbd (env : Env) (xt ypos : ℚ) (k : ℕ) :
    (rowPreEvents env xt ypos k).filter isRdbd = [] := by
  unfold rowPreEvents
  simp [List.filter_append, pollEvents_filter_rdbd, isRdbd]

/-- Helper: the arm-and-fly phase writes no deadband override. -/
theorem rowArm_filter_rdbd (env : Env) (r : ScanRequest) (deff δ v : ℚ) :
    (rowArmEvents env r deff δ v).filter isRdbd = [] := by
  unfold rowArmEvents
  split_ifs <;>
    simp [List.filter_append, detConfig_filter_rdbd, triggerEvents_filter_rdbd,
      isRdbd]

/-- Helper: the drain phase writes no deadband override. -/
theorem rowDrain_filter_rdbd (env : Env) :
    (rowDrainEvents env).filter isRdbd = [] := by
  unfold rowDrainEvents
  simp [List.filter_append, resetVelocity_filter_rdbd, isRdbd]

/-- Helper: a full row writes no deadband override. -/
theorem rowEvents_filter_rdbd (env : Env) (r : ScanRequest) (deff δ v : ℚ)
    (k : ℕ) (ypos : ℚ) :
    (rowEvents env r deff δ v k ypos).filter isRdbd = [] := by
  unfold rowEvents
  simp [List.filter_append, rowPre_filter_rdbd, rowArm_filter_rdbd,
    rowDrain_filter_rdbd]

/-- Helper: the per-row telemetry header writes no deadband override. -/
theorem rowHeader_filter_rdbd (env : Env) (k : ℕ) :
    (rowHeader env k).filter isRdbd = [] := by
  unfold rowHeader
  simp [List.filter_cons, isRdbd,
    filter_map_nil isRdbd Event.flyNext env.zebraDets (fun _ => rfl)]

/-- Helper: the row loop — faulted or not — writes no deadband override. -/
theorem rowsGo_filter_rdbd (env : Env) (r : ScanRequest) (deff δ v : ℚ)
    (fk : Option ℕ) (steps : List (ℕ × ℚ)) :
    ((rowsGo env r deff δ v fk steps).1).filter isRdbd = [] := by
  induction steps with
  | nil => rfl
  | cons s rest ih =>
    obtain ⟨k, y⟩ := s
    unfold rowsGo
    split
    · simp [List.filter_append, rowHeader_filter_rdbd, rowPre_filter_rdbd,
        rowArm_filter_rdbd]
    · simp [List.filter_append, rowHeader_filter_rdbd, rowEvents_filter_rdbd, ih]

/-- Helper: the in-plan prefix writes no deadband override. -/
theorem planPre_filter_rdbd (env : Env) (xnum : ℤ) :
    (planPreEvents env xnum).filter isRdbd = [] := by
  unfold planPreEvents
  simp [List.filter_cons, isRdbd,
    filter_map_nil isRdbd (fun d => Event.setTotalPoints d xnum) env.zebraDets
      (fun _ => rfl)]

/-- Helper: the merlin staging writes no deadband override. -/
theorem merlinSetup_filter_rdbd (dets : List String) (deff : ℚ) (xnum : ℤ) :
    (merlinSetupEvents dets deff xnum).filter isRdbd = [] := by
  unfold merlinSetupEvents
  split_ifs <;> simp [isRdbd]

/-- Helper: the dexela staging writes no deadband override. -/
theorem dexelaSetup_filter_rdbd (dets : List String) (deff : ℚ) :
    (dexelaSetupEvents dets deff).filter isRdbd = [] := by
  unfold dexelaSetupEvents
  split_ifs <;> simp [isRdbd]

/-- Helper: X-slot writes among the installed overrides. -/
theorem install_filter_rdbdX (env : Env) :
    (installEvents env).filter isRdbdX =
      (if env.xIsHfX || env.yIsHfX then
        [Event.putRetryDeadbandX (2/10000)] else []) := by
  unfold installEvents
  split_ifs <;> simp [isRdbdX]

/-- Helper: Y-slot writes among the installed overrides. -/
theorem install_filter_rdbdY (env : Env) :
    (installEvents env).filter isRdbdY =
      (if env.xIsHfY || env.yIsHfY then
        [Event.putRetryDeadbandY (2/10000)] else []) := by
  unfold installEvents
  split_ifs <;> simp [isRdbdY]

/-- Helper: X-slot writes among the stop-callback restorations. -/
theorem finalize_filter_rdbdX (env : Env) :
    (finalizeEvents env).filter isRdbdX =
      (if env.xIsHfX || env.yIsHfX then
        [Event.putRetryDeadbandX env.oldRdbdX] else []) := by
  unfold finalizeEvents
  split_ifs <;> simp [isRdbdX]

/-- Helper: Y-slot writes among the stop-callback restorations. -/
theorem finalize_filter_rdbdY (env : Env) :
    (finalizeEvents env).filter isRdbdY =
      (if env.xIsHfY || env.yIsHfY then
        [Event.putRetryDeadbandY env.oldRdbdY] else []) := by
  unfold finalizeEvents
  split_ifs <;> simp [isRdbdY]

/-- Helper: X-projection of an `isRdbd`-free list is empty. -/
theorem filter_rdbdX_of_rdbd (l : List Event) (h : l.filter isRdbd = []) :
    l.filter isRdbdX = [] :=
  filter_sub_nil _ _ _ isRdbdX_le h

/-- Helper: Y-projection of an `isRdbd`-free list is empty. -/
theorem filter_rdbdY_of_rdbd (l : List Event) (h : l.filter isRdbd = []) :
    l.filter isRdbdY = [] :=
  filter_sub_nil _ _ _ isRdbdY_le h

/-- Request used for the C3 counterexample: one row, `hf_stage.x` as fast
axis, row velocity 2. -/
def reqC3cex : ScanRequest := ⟨0, 10, 11, 0, 0, 1, 1/2, none, true, false⟩

/-- C3 counterexample: when the completion wait of row 0 fails, the only
write the whole trace ever makes to the backlash-speed override slot is the
row-scoped install of the row velocity `2` (lines 248-249); no command
restores the slot to its prior value on this error exit, and the
success-path `reset_stage_defaults` call (line 437) is absent, so the
claim that every installed override is restored exactly once on every exit
path is false.  In addition, a failure of the very first move (line 181)
happens before the bluesky run opens, so even the tightened retry-deadband
override stays installed with no restoring write at all on that exit
path. -/
theorem c3_counterexample :
    (runScan envPlain reqC3cex (Fault.inRow 0)).1.filter isBacklashX =
      [Event.putBacklashSpeedX 2] ∧
    Event.resetStageDefaults ∉ (runScan envPlain reqC3cex (Fault.inRow 0)).1 ∧
    (runScan envPlain reqC3cex (Fault.inRow 0)).2 = Outcome.faulted ∧
    (runScan envPlain reqC3cex Fault.preRun).1.filter isRdbdX =
      [Event.putRetryDeadbandX (2/10000)] := by
  refine ⟨?_, ?_, ?_, ?_⟩ <;>
    (norm_num [runScan, envPlain, reqC3cex, detNames, installEvents,
      merlinSetupEvents, dexelaSetupEvents, computeDelta, rowVelocity,
      computeVelocity, pdiv, effectiveDwell, linspace, List.enum,
      List.enumFrom, rowsGo, rowHeader, rowPreEvents, pollEvents,
      rowArmEvents, detConfigEvents, triggerEvents, planPreEvents,
      finalizeEvents, isBacklashX, isRdbdX, max_def]
     try simp +decide [isBacklashX, isRdbdX])

/-- C3 amended: the tightened retry-deadband overrides installed at start
are written exactly once and restored to their saved prior values exactly
once by the stop-document callback, on every exit path that reaches the
bluesky run — success and any in-row failure alike (for any number of rows
run); the row-scoped backlash-speed override, by contrast, is not restored
on error exits (see the counterexample), and a failure of the pre-run move
at line 181 happens before the run opens, so no restoration at all runs on
that path. -/
theorem c3_amended (env : Env) (r : ScanRequest) (fault : Fault) (d v : ℚ)
    (hval : ¬(r.xnum < 1 ∨ r.ynum < 1))
    (hδ : computeDelta (detNames env) r = Except.ok d)
    (hv : rowVelocity (detNames env) r = Except.ok v)
    (hz : env.zebraDets ≠ [])
    (hpre : fault ≠ Fault.preRun) :
    (runScan env r fault).1.filter isRdbdX =
      (if env.xIsHfX || env.yIsHfX then
        [Event.putRetryDeadbandX (2/10000), Event.putRetryDeadbandX env.oldRdbdX]
       else []) ∧
    (runScan env r fault).1.filter isRdbdY =
      (if env.xIsHfY || env.yIsHfY then
        [Event.putRetryDeadbandY (2/10000), Event.putRetryDeadbandY env.oldRdbdY]
       else []) := by
  obtain ⟨x0, ds, hzz⟩ : ∃ x0 ds, env.zebraDets = x0 :: ds := by
    cases h : env.zebraDets with
    | nil => exact absurd h hz
    | cons a l => exact ⟨a, l, rfl⟩
  have hgoX := rowsGo_filter_rdbd env r (effectiveDwell (detNames env) r.dwell) d v
  constructor
  · unfold runScan
    rw [if_neg hval]
    simp only [hδ]
    rw [if_neg hpre]
    simp only [hzz, hv]
    simp [List.filter_append, install_filter_rdbdX, finalize_filter_rdbdX,
      filter_rdbdX_of_rdbd _ (merlinSetup_filter_rdbd (detNames env) _ r.xnum),
      filter_rdbdX_of_rdbd _ (dexelaSetup_filter_rdbd (detNames env) _),
      filter_rdbdX_of_rdbd _ (planPre_filter_rdbd env r.xnum),
      filter_rdbdX_of_rdbd _ (hgoX _ _),
      isRdbdX, planPostEvents]
    split_ifs <;> simp [isRdbdX]
  · unfold runScan
    rw [if_neg hval]
    simp only [hδ]
    rw [if_neg hpre]
    simp only [hzz, hv]
    simp [List.filter_append, install_filter_rdbdY, finalize_filter_rdbdY,
      filter_rdbdY_of_rdbd _ (merlinSetup_filter_rdbd (detNames env) _ r.xnum),
      filter_rdbdY_of_rdbd _ (dexelaSetup_filter_rdbd (detNames env) _),
      filter_rdbdY_of_rdbd _ (planPre_filter_rdbd env r.xnum),
      filter_rdbdY_of_rdbd _ (hgoX _ _),
      isRdbdY, planPostEvents]
    split_ifs <;> simp [isRdbdY]

/-- Request used for the C3 witness: two rows, success path. -/
def reqC3w : ScanRequest := ⟨0, 10, 11, 0, 4, 2, 1/2, none, true, false⟩

/-- Witness for the amended C3 on a successful two-row run over
`hf_stage`: each deadband slot sees exactly the tightened install `2e-4`
followed by the restoration of its saved prior value `0.01`. -/
theorem c3_witness :
    (runScan envPlain reqC3w Fault.noFault).1.filter isRdbdX =
      [Event.putRetryDeadbandX (2/10000), Event.putRetryDeadbandX (1/100)] ∧
    (runScan envPlain reqC3w Fault.noFault).1.filter isRdbdY =
      [Event.putRetryDeadbandY (2/10000), Event.putRetryDeadbandY (1/100)] := by
  have h := c3_amended envPlain reqC3w Fault.noFault 2 2 (by decide) ?hd ?hv
    (by simp [envPlain]) (by decide)
  case hd =>
    norm_num [computeDelta, rowVelocity, computeVelocity, effectiveDwell,
      pdiv, detNames, envPlain, reqC3w, max_def]
  case hv =>
    norm_num [rowVelocity, computeVelocity, effectiveDwell, pdiv, detNames,
      envPlain, reqC3w]
  constructor
  · have h1 := h.1
    simpa [envPlain] using h1
  · have h2 := h.2
    simpa [envPlain] using h2

end FlyScan
